import Mathlib

/-
Verification of the python-caltrain schedule library against its design
specification.  The Python sources (src/python_caltrain/caltrain.py, plus the
historical variant src/caltrain/caltrain.py where noted) are shallowly embedded
below: Python strings are modelled as lists of Unicode code points, Python
dicts as insertion-ordered association lists, datetime.time values as seconds
since midnight, datetime.date values as proleptic-Gregorian ordinals, and
raised exceptions as explicit error values.
-/

/-- Python strings, modelled as lists of Unicode code points. -/
abbrev Str := List Nat

/-- Code points of a Lean string literal, used to write concrete Python
strings. -/
def strCodes (s : String) : Str := s.toList.map Char.toNat

/-- ASCII uppercase letter test on a code point. -/
def isUpperCode (c : Nat) : Bool := 65 ≤ c && c ≤ 90

/-- ASCII lowercase letter test on a code point. -/
def isLowerCode (c : Nat) : Bool := 97 ≤ c && c ≤ 122

/-- ASCII digit test on a code point, the `[0-9]` regex class. -/
def isDigitCode (c : Nat) : Bool := 48 ≤ c && c ≤ 57

/-- The `[A-Za-z0-9]` regex class of _sanitize_name and of the display-key
split in load_from_gtfs. -/
def isAlnumCode (c : Nat) : Bool := isUpperCode c || isLowerCode c || isDigitCode c

/-- ASCII case folding of one code point; Python str.lower restricted to the
ASCII range (the only range its callers below feed it). -/
def toLowerCode (c : Nat) : Nat := if isUpperCode c then c + 32 else c

/-- ASCII upcasing of one code point; Python str.upper restricted to ASCII. -/
def toUpperCode (c : Nat) : Nat := if isLowerCode c then c - 32 else c

/-- Whitespace recognized by Python str.strip and int(): ASCII whitespace plus
the Unicode space code points of str.isspace. -/
def isSpaceCode (c : Nat) : Bool :=
  (9 ≤ c && c ≤ 13) || (28 ≤ c && c ≤ 31) || c == 32 || c == 133 || c == 160 ||
    c == 5760 || (8192 ≤ c && c ≤ 8202) || c == 8232 || c == 8233 ||
    c == 8239 || c == 8287 || c == 12288

/-- Python str.lower (ASCII range). -/
def lowerStr (s : Str) : Str := s.map toLowerCode

/-- Python str.upper (ASCII range). -/
def upperStr (s : Str) : Str := s.map toUpperCode

/-- Python str.strip(): remove leading and trailing whitespace. -/
def pyStrip (s : Str) : Str :=
  ((s.dropWhile isSpaceCode).reverse.dropWhile isSpaceCode).reverse

/-- re.split with a single-character class: cut the string at every code point
not satisfying p, keeping empty pieces, exactly as re.split does. -/
def splitNotP (p : Nat → Bool) : Str → List Str
  | [] => [[]]
  | c :: cs =>
    let r := splitNotP p cs
    if p c then (c :: r.headD []) :: r.tail else [] :: r

/-- Python str.replace(pat, "") for a fixed pattern: delete the non-overlapping
occurrences of pat scanning left to right, never rescanning replaced text.
The skip counter carries how many already-matched characters remain to be
dropped, keeping the recursion structural. -/
def pyReplaceDelAux (pat : Str) : Nat → Str → Str
  | _, [] => []
  | k + 1, _ :: cs => pyReplaceDelAux pat k cs
  | 0, c :: cs =>
    if pat ≠ [] ∧ pat.isPrefixOf (c :: cs) = true then
      pyReplaceDelAux pat (pat.length - 1) cs
    else
      c :: pyReplaceDelAux pat 0 cs

/-- Python str.replace(pat, "") from position 0. -/
def pyReplaceDel (pat : Str) (s : Str) : Str := pyReplaceDelAux pat 0 s

/-- Python substring containment (pat in s): pat occurs contiguously in s. -/
def hasSubstr (pat : Str) : Str → Bool
  | [] => decide (pat = [])
  | c :: cs => pat.isPrefixOf (c :: cs) || hasSubstr pat cs

/-- The function _sanitize_name from src/python_caltrain/caltrain.py, line for line:
the name with every character outside [A-Za-z0-9] removed, lower-cased, with
every occurrence of "station" deleted, then stripped. -/
def sanitize_name (name : Str) : Str :=
  pyStrip (pyReplaceDel (strCodes "station") (lowerStr ((splitNotP isAlnumCode name).flatten)))

/-- Python int(str): optional surrounding whitespace, an optional sign, then
one or more ASCII digits.  (Underscore separators and non-ASCII digits never
occur in the feeds and are outside the modelled input range.)  none is a
ValueError. -/
def pyInt (s : Str) : Option Int :=
  let t := pyStrip s
  let sd : Int × Str :=
    match t with
    | 43 :: rest => (1, rest)
    | 45 :: rest => (-1, rest)
    | _ => (1, t)
  if sd.2 ≠ [] ∧ sd.2.all isDigitCode then
    some (sd.1 * ((sd.2.foldl (fun acc c => acc * 10 + (c - 48)) (0 : Nat) : Nat) : Int))
  else none

/-- The function _resolve_time from src/python_caltrain/caltrain.py: split the raw string on
":" and int-parse the three fields (anything else is a ValueError, the none
case); divmod the hour by 24 to get the day offset; then the time of day is
the time component of BASE_DATE + timedelta(hours, minutes, seconds), i.e. the
number of seconds since midnight of that datetime.  divmod on ints is
floor-based, hence ediv/emod; the timedelta/.time() round trip reduces the
total seconds modulo 86400. -/
def resolve_time (t : Str) : Option (Int × Nat) :=
  match (t.splitOn 58).mapM pyInt with
  | some [hour, minute, second] =>
    some (hour.ediv 24, ((hour.emod 24) * 3600 + minute * 60 + second).emod 86400 |>.toNat)
  | _ => none

/-- The Stop namedtuple: arrival/departure times of day (seconds since
midnight) with their day offsets, and the stop sequence number. -/
structure Stop where
  arrival : Nat
  arrival_day : Int
  departure : Nat
  departure_day : Int
  stop_number : Int
deriving DecidableEq, Repr

/-- datetime.time hour field of a seconds-since-midnight value. -/
def timeHour (t : Nat) : Nat := t / 3600

/-- datetime.time minute field of a seconds-since-midnight value. -/
def timeMinute (t : Nat) : Nat := t % 3600 / 60

/-- datetime.time second field of a seconds-since-midnight value. -/
def timeSecond (t : Nat) : Nat := t % 60

/-- The function _resolve_duration from src/python_caltrain/caltrain.py, in seconds: the
start endpoint is BASE_DATE plus the hour/minute/second of start.departure and
start.departure_day days; the end endpoint is BASE_DATE plus the
hour/minute/second of end.arrival and end.departure_day days (sic: the source
reads end.departure_day here, not end.arrival_day).  The result is the
difference of the two endpoints. -/
def resolve_duration (start end_ : Stop) : Int :=
  let start_time : Int := start.departure_day * 86400 +
    (timeHour start.departure * 3600 + timeMinute start.departure * 60 +
      timeSecond start.departure)
  let end_time : Int := end_.departure_day * 86400 +
    (timeHour end_.arrival * 3600 + timeMinute end_.arrival * 60 +
      timeSecond end_.arrival)
  end_time - start_time

/-- Modelled from the spec, section 3 Stop invariant: departure at or after
arrival when both are compared on the combined day-offset / time-of-day
timeline. -/
def specStopInvariant (s : Stop) : Prop :=
  s.arrival_day * 86400 + (s.arrival : Int) ≤
    s.departure_day * 86400 + (s.departure : Int)

/-- Modelled from the spec, section 4.3: the duration is the arrival endpoint
(arrival day offset plus arrival time of day) minus the departure endpoint
(departure day offset plus departure time of day), on one absolute timeline. -/
def specDuration (start end_ : Stop) : Int :=
  (end_.arrival_day * 86400 + (end_.arrival : Int)) -
    (start.departure_day * 86400 + (start.departure : Int))

instance (s : Stop) : Decidable (specStopInvariant s) := by
  unfold specStopInvariant; infer_instance

/-- The split pieces of splitNotP joined back together are exactly a filter. -/
theorem splitNotP_ne_nil (p : Nat → Bool) (s : Str) : splitNotP p s ≠ [] := by
  cases s with
  | nil => simp [splitNotP]
  | cons c cs =>
    simp only [splitNotP]
    split <;> simp

theorem splitNotP_flatten (p : Nat → Bool) (s : Str) :
    (splitNotP p s).flatten = s.filter p := by
  induction s with
  | nil => simp [splitNotP]
  | cons c cs ih =>
    rcases hne : splitNotP p cs with _ | ⟨h, t⟩
    · exact absurd hne (splitNotP_ne_nil p cs)
    · rw [hne] at ih
      by_cases hp : p c
      · simp [splitNotP, hne, hp, List.filter_cons, ← ih]
      · simp [splitNotP, hne, hp, List.filter_cons, ← ih]

/-- pyReplaceDel only deletes characters: its output is a sublist of the
input. -/
theorem pyReplaceDelAux_sublist (pat : Str) (k : Nat) (s : Str) :
    (pyReplaceDelAux pat k s).Sublist s := by
  induction s generalizing k with
  | nil => simp [pyReplaceDelAux]
  | cons c cs ih =>
    cases k with
    | succ k => exact (ih k).cons c
    | zero =>
      rw [pyReplaceDelAux]
      split
      · exact (ih (pat.length - 1)).cons c
      · exact (ih 0).cons₂ c

theorem pyReplaceDel_sublist (pat : Str) (s : Str) :
    (pyReplaceDel pat s).Sublist s := pyReplaceDelAux_sublist pat 0 s

/-- When the pattern does not occur in s, pyReplaceDel is the identity. -/
theorem pyReplaceDel_eq_self (pat : Str) (s : Str)
    (h : hasSubstr pat s = false) : pyReplaceDel pat s = s := by
  unfold pyReplaceDel
  induction s with
  | nil => simp [pyReplaceDelAux]
  | cons c cs ih =>
    rw [hasSubstr, Bool.or_eq_false_iff] at h
    rw [pyReplaceDelAux, if_neg (fun hc => by simp [h.1] at hc)]
    rw [ih h.2]

/-- dropWhile is the identity when no element satisfies the predicate. -/
theorem dropWhile_eq_self_of (p : Nat → Bool) (s : Str)
    (h : ∀ c ∈ s, p c = false) : s.dropWhile p = s := by
  cases s with
  | nil => rfl
  | cons c cs => simp [List.dropWhile_cons, h c (by simp)]

/-- pyStrip is the identity on whitespace-free strings. -/
theorem pyStrip_eq_self (s : Str) (h : ∀ c ∈ s, isSpaceCode c = false) :
    pyStrip s = s := by
  unfold pyStrip
  rw [dropWhile_eq_self_of _ s h,
    dropWhile_eq_self_of _ s.reverse (fun c hc => h c (List.mem_reverse.mp hc)),
    List.reverse_reverse]

/-- Elements survive pyStrip only if present in the input. -/
theorem mem_of_mem_pyStrip (s : Str) (c : Nat) (h : c ∈ pyStrip s) : c ∈ s := by
  unfold pyStrip at h
  rw [List.mem_reverse] at h
  have h2 := (List.dropWhile_sublist (l := (s.dropWhile isSpaceCode).reverse)
    isSpaceCode).mem h
  rw [List.mem_reverse] at h2
  exact (List.dropWhile_sublist isSpaceCode).mem h2

/-- map is the identity when the function fixes every element. -/
theorem map_eq_self_of (f : Nat → Nat) (s : Str) (h : ∀ c ∈ s, f c = c) :
    s.map f = s := by
  induction s with
  | nil => rfl
  | cons c cs ih =>
    simp only [List.map_cons, h c (by simp), List.cons.injEq, true_and]
    exact ih (fun d hd => h d (by simp [hd]))

/-- ASCII facts about sanitized characters: lower-casing an alphanumeric code
point yields an alphanumeric, already-lower-cased, non-whitespace code
point. -/
theorem toLowerCode_alnum (d : Nat) (h : isAlnumCode d = true) :
    isAlnumCode (toLowerCode d) = true ∧ toLowerCode (toLowerCode d) = toLowerCode d ∧
      isSpaceCode (toLowerCode d) = false := by
  have hb : (65 ≤ d ∧ d ≤ 90) ∨ (97 ≤ d ∧ d ≤ 122) ∨ (48 ≤ d ∧ d ≤ 57) := by
    simp only [isAlnumCode, isUpperCode, isLowerCode, isDigitCode,
      Bool.or_eq_true, Bool.and_eq_true, decide_eq_true_eq] at h
    omega
  have he : ∃ e, toLowerCode d = e ∧ ((97 ≤ e ∧ e ≤ 122) ∨ (48 ≤ e ∧ e ≤ 57)) := by
    unfold toLowerCode isUpperCode
    refine ⟨_, rfl, ?_⟩
    split <;> rename_i hc <;>
      simp only [Bool.and_eq_true, decide_eq_true_eq] at hc <;> omega
  obtain ⟨e, hde, hre⟩ := he
  rw [hde]
  have hupper : isUpperCode e = false := by
    rw [Bool.eq_false_iff]
    intro hcontra
    simp only [isUpperCode, Bool.and_eq_true, decide_eq_true_eq] at hcontra
    omega
  refine ⟨?_, ?_, ?_⟩
  · simp only [isAlnumCode, isUpperCode, isLowerCode, isDigitCode,
      Bool.or_eq_true, Bool.and_eq_true, decide_eq_true_eq]
    omega
  · simp [toLowerCode, hupper]
  · rw [Bool.eq_false_iff]
    intro hcontra
    simp only [isSpaceCode, Bool.or_eq_true, Bool.and_eq_true,
      decide_eq_true_eq, beq_iff_eq] at hcontra
    omega

/-- Every character of a sanitized name is a lower-case ASCII alphanumeric
code point, fixed by further lower-casing and never whitespace. -/
theorem sanitize_name_chars (x : Str) (c : Nat) (h : c ∈ sanitize_name x) :
    isAlnumCode c = true ∧ toLowerCode c = c ∧ isSpaceCode c = false := by
  unfold sanitize_name at h
  have h1 := mem_of_mem_pyStrip _ _ h
  have h2 := (pyReplaceDel_sublist (strCodes "station") _).mem h1
  rw [splitNotP_flatten] at h2
  unfold lowerStr at h2
  rcases List.mem_map.mp h2 with ⟨d, hd, rfl⟩
  exact toLowerCode_alnum d (List.of_mem_filter hd)

/-- C4 (amended): sanitization is idempotent on every input whose sanitized
form does not contain "station" as a substring. -/
theorem sanitize_name_idem (x : Str)
    (h : hasSubstr (strCodes "station") (sanitize_name x) = false) :
    sanitize_name (sanitize_name x) = sanitize_name x := by
  have hall := sanitize_name_chars x
  have step : sanitize_name (sanitize_name x) =
      pyStrip (pyReplaceDel (strCodes "station")
        (lowerStr ((splitNotP isAlnumCode (sanitize_name x)).flatten))) := rfl
  rw [step, splitNotP_flatten,
    List.filter_eq_self.mpr (fun c hc => (hall c hc).1)]
  unfold lowerStr
  rw [map_eq_self_of _ _ (fun c hc => (hall c hc).2.1),
    pyReplaceDel_eq_self _ _ h]
  exact pyStrip_eq_self _ (fun c hc => (hall c hc).2.2)

/-- C4 (counterexample): sanitizing "stastationtion" yields "station" (deleting
the inner occurrence of "station" splices a new one together, which one more
pass deletes), so sanitize of sanitize differs from sanitize. -/
theorem sanitize_name_not_idempotent :
    sanitize_name (sanitize_name (strCodes "stastationtion")) ≠
      sanitize_name (strCodes "stastationtion") := by decide

/-- C4 (witness): a station-free name on which idempotence holds, via
sanitize_name_idem. -/
theorem sanitize_name_idem_witness :
    sanitize_name (sanitize_name (strCodes "Palo Alto")) =
      sanitize_name (strCodes "Palo Alto") :=
  sanitize_name_idem (strCodes "Palo Alto") (by decide)

/-- C3 (counterexample): _resolve_time("25:30:00") does not return time of day
00:30:00 (1800 seconds) as the spec example states. -/
theorem resolve_time_2530_not_0030 :
    resolve_time (strCodes "25:30:00") ≠ some (1, 1800) := by decide

/-- C3 (amended): _resolve_time("25:30:00") returns day offset 1 and time of
day 01:30:00 (5400 seconds): 25 divmod 24 is (1, 1), and the remainder hour 1
recombined with minutes 30 gives 01:30:00. -/
theorem resolve_time_2530 :
    resolve_time (strCodes "25:30:00") = some (1, 5400) := by decide

/-- C2 (code bug evidence): on the failing input, both stops satisfy the Stop
invariant of the spec, the spec timeline difference (using the arrival day
offset of the arrival stop) is 59 minutes = 3540 s, yet _resolve_duration
returns 24 h 59 min = 89940 s because it reads end.departure_day instead of
end.arrival_day; on the spec example (departure day 0 / 23:50:00, arrival
day 1 / 00:10:00, with the arrival stop departing on day 1 as well) the code
does return the positive 20 minutes the spec expects. -/
theorem resolve_duration_departure_day_bug :
    (specStopInvariant (Stop.mk 82800 0 82800 0 1) ∧
      specStopInvariant (Stop.mk 86340 0 300 1 2)) ∧
    resolve_duration (Stop.mk 82800 0 82800 0 1) (Stop.mk 86340 0 300 1 2) = 89940 ∧
    specDuration (Stop.mk 82800 0 82800 0 1) (Stop.mk 86340 0 300 1 2) = 3540 ∧
    resolve_duration (Stop.mk 85800 0 85800 0 1) (Stop.mk 600 1 720 1 2) = 1200 := by
  exact ⟨⟨by decide, by decide⟩, by decide, by decide, by decide⟩

/-- Python dict insertion: overwrite in place when the key is present (keeping
its position), append otherwise. -/
def dictInsert {κ α : Type} [DecidableEq κ] (k : κ) (v : α) : List (κ × α) → List (κ × α)
  | [] => [(k, v)]
  | (k2, v2) :: t => if k = k2 then (k, v) :: t else (k2, v2) :: dictInsert k v t

/-- Python dict lookup; keys are unique, so the first match is the match. -/
def dictGet {κ α : Type} [DecidableEq κ] (k : κ) : List (κ × α) → Option α
  | [] => none
  | (k2, v) :: t => if k = k2 then some v else dictGet k t

/-- The Station namedtuple: title-cased display name and fare zone. -/
structure Station where
  name : Str
  zone : Int
deriving DecidableEq, Repr

/-- The ServiceWindow namedtuple: first and last active date (as
datetime.date ordinals) and the active weekday indices, Monday = 0. -/
structure ServiceWindow where
  start : Nat
  end_ : Nat
  days : List Nat
deriving DecidableEq, Repr

/-- The Direction enum. -/
inductive Direction
  | north
  | south
deriving DecidableEq, Repr

/-- The TransitType enum of src/python_caltrain/caltrain.py (values "bu",
"li", "lo", "tasj"). -/
inductive TransitType
  | baby_bullet
  | limited
  | local_route
  | tamien_sanjose
deriving DecidableEq, Repr

/-- The Train namedtuple; stops maps Station to Stop as the Python dict
does. -/
structure Train where
  name : Str
  kind : TransitType
  direction : Direction
  stops : List (Station × Stop)
  service_window : ServiceWindow
deriving DecidableEq, Repr

/-- The Trip namedtuple returned by next_trips: departure and arrival times of
day, duration in seconds, and the serving train. -/
structure Trip where
  departure : Nat
  arrival : Nat
  duration : Int
  train : Train
deriving DecidableEq, Repr

/-- The queryable attributes of a Caltrain instance. -/
structure CaltrainState where
  version : Option Str
  trains : List (Str × Train)
  stations : List (Str × Station)
  unambiguous_stations : List (Str × Station)
  service_windows : List (Str × ServiceWindow)
  fares : List ((Int × Int) × List Int)
deriving DecidableEq, Repr

/-- A row of fare_attributes.txt as the DictReader yields it. -/
structure FareAttrRow where
  fare_id : Str
  price : Str
deriving DecidableEq, Repr

/-- A row of fare_rules.txt. -/
structure FareRuleRow where
  fare_id : Str
  origin_id : Str
  destination_id : Str
deriving DecidableEq, Repr

/-- A row of stops.txt. -/
structure StopRow where
  stop_id : Str
  stop_name : Str
  zone_id : Str
deriving DecidableEq, Repr

/-- A row of trips.txt. -/
structure TripRow where
  trip_id : Str
  route_id : Str
  direction_id : Str
  service_id : Str
deriving DecidableEq, Repr

/-- A row of stop_times.txt. -/
structure StopTimeRow where
  trip_id : Str
  arrival_time : Str
  departure_time : Str
  stop_id : Str
  stop_sequence : Str
deriving DecidableEq, Repr

/-- The GTFS archive as load_from_gtfs reads it: the archive member names plus
the parsed csv rows of the six tables (calendar.txt is read positionally). -/
structure Feed where
  namelist : List Str
  fare_attributes : List FareAttrRow
  fare_rules : List FareRuleRow
  calendar : List (List Str)
  stops : List StopRow
  trips : List TripRow
  stop_times : List StopTimeRow
deriving DecidableEq, Repr

/-- The exceptions a load can raise: the UnexpectedGTFSLayoutError of the
source plus the builtin exceptions its joins and parses can raise. -/
inductive LoadError
  | unexpectedGTFSLayout
  | indexError
  | stopIteration
  | valueError
  | keyError (key : Str)
  | attributeError
deriving DecidableEq, Repr

/-- Run the per-row body of one loader for-loop: each row either updates the
accumulated collection or raises, in which case the collection built so far is
kept, because the Python loops mutate self in place. -/
def runRows {σ ρ : Type} (step : σ → ρ → Except LoadError σ) : σ → List ρ → σ × Option LoadError
  | s, [] => (s, none)
  | s, r :: rs =>
    match step s r with
    | Except.ok s2 => runRows step s2 rs
    | Except.error e => (s, some e)

/-- Portion of an archive member path before the first "/". -/
def topFolder (f : Str) : Str := (f.splitOn 47).headD []

/-- Version discovery in load_from_gtfs: the set of top-level folder names of
the archive must be a singleton; more than one raises
UnexpectedGTFSLayoutError, and an empty archive hits list(folders)[0] with an
IndexError. -/
def extractVersion (namelist : List Str) : Except LoadError Str :=
  match (namelist.map topFolder).dedup with
  | [] => Except.error LoadError.indexError
  | [v] => Except.ok v
  | _ => Except.error LoadError.unexpectedGTFSLayout

/-- tuple(int(x) for x in price.split(".")), loader step 1. -/
def parsePrice (price : Str) : Option (List Int) := (price.splitOn 46).mapM pyInt

/-- Loader step 1a: fare_attributes.txt rows into a fare_id to price map; a
malformed price is a ValueError.  fare_lookup is a local variable, so only the
finished map or the error escapes. -/
def buildFareLookup (rows : List FareAttrRow) : Except LoadError (List (Str × List Int)) :=
  rows.foldlM (fun m r =>
    match parsePrice r.price with
    | some p => Except.ok (dictInsert r.fare_id p m)
    | none => Except.error LoadError.valueError) []

/-- Loader step 1b, per row of fare_rules.txt: the zone pair is int-parsed
(ValueError on failure) and joined with the fare lookup (a dangling fare id is
a KeyError); the row then updates self._fares in place. -/
def stepFareRule (fare_lookup : List (Str × List Int))
    (fares : List ((Int × Int) × List Int)) (r : FareRuleRow) :
    Except LoadError (List ((Int × Int) × List Int)) :=
  match pyInt r.origin_id, pyInt r.destination_id with
  | some o, some d2 =>
    match dictGet r.fare_id fare_lookup with
    | some p => Except.ok (dictInsert (o, d2) p fares)
    | none => Except.error (LoadError.keyError r.fare_id)
  | _, _ => Except.error LoadError.valueError

/-- Proleptic Gregorian leap-year test. -/
def isLeapYear (y : Nat) : Bool := (y % 4 == 0 && y % 100 != 0) || y % 400 == 0

/-- Day count of one month. -/
def daysInMonth (y m : Nat) : Nat :=
  if m = 2 then (if isLeapYear y then 29 else 28)
  else if m = 4 ∨ m = 6 ∨ m = 9 ∨ m = 11 then 30 else 31

/-- Days before month m in year y. -/
def daysBeforeMonth (y m : Nat) : Nat :=
  (List.range (m - 1)).foldl (fun acc i => acc + daysInMonth y (i + 1)) 0

/-- Value of an all-digit code point string. -/
def natOfDigits (s : Str) : Nat := s.foldl (fun acc c => acc * 10 + (c - 48)) 0

/-- datetime.date.toordinal(): day number counted from 0001-01-01 = 1, the
representation used for every date below (weekday Monday-0 is then
(ordinal + 6) mod 7). -/
def dateOrdinal (y m d : Nat) : Nat :=
  365 * (y - 1) + (y - 1) / 4 - (y - 1) / 100 + (y - 1) / 400 + daysBeforeMonth y m + d

/-- datetime.strptime(s, "%Y%m%d").date() for the fixed-width eight-digit form
the feeds use: four-digit year, two-digit month 01..12, two-digit day valid
for that month; anything else is a ValueError. -/
def parseDateYYYYMMDD (s : Str) : Option Nat :=
  if s.length = 8 ∧ s.all isDigitCode then
    let y := natOfDigits (s.take 4)
    let m := natOfDigits ((s.drop 4).take 2)
    let d := natOfDigits (s.drop 6)
    if 1 ≤ m ∧ m ≤ 12 ∧ 1 ≤ d ∧ d ≤ daysInMonth y m then some (dateOrdinal y m d)
    else none
  else none

/-- Loader step 2, per row of calendar.txt read positionally: service id in
column 0, start and end dates in the last two columns, day flags in columns
1..7; a row shorter than two columns is an IndexError, malformed dates or
flags are ValueErrors. -/
def stepCalendar (ws : List (Str × ServiceWindow)) (r : List Str) :
    Except LoadError (List (Str × ServiceWindow)) :=
  if h : r.length < 2 then Except.error LoadError.indexError
  else
    match parseDateYYYYMMDD (r.get ⟨r.length - 2, by omega⟩),
        parseDateYYYYMMDD (r.get ⟨r.length - 1, by omega⟩),
        ((r.drop 1).take 7).mapM pyInt with
    | some d1, some d2, some flags =>
      Except.ok (dictInsert (r.headD [])
        ⟨d1, d2, flags.enum.filterMap (fun p => if p.2 = 1 then some p.1 else none)⟩ ws)
    | _, _, _ => Except.error LoadError.valueError

/-- Loader step 2: next() skips the header row (StopIteration when the file is
empty), then the remaining rows are processed in order. -/
def buildServiceWindows (rows : List (List Str)) :
    List (Str × ServiceWindow) × Option LoadError :=
  match rows with
  | [] => ([], some LoadError.stopIteration)
  | _ :: rest => runRows stepCalendar [] rest

/-- re.match of the anchored _STATIONS_RE pattern, returning group 1: the
greedy (.+) backtracks from the right, so the match succeeds exactly when the
name ends in " Caltrain" or " Caltrain Station" with a nonempty newline-free
prefix, and group 1 is that prefix (the two suffixes cannot both hold of one
string).  csv fields carry no newline, so the end-anchor newline case of the
regex engine never arises and is not modelled. -/
def stationsReMatch (s : Str) : Option Str :=
  if (strCodes " Caltrain").isSuffixOf s then
    let p := s.take (s.length - 9)
    if p ≠ [] ∧ ¬ 10 ∈ p then some p else none
  else if (strCodes " Caltrain Station").isSuffixOf s then
    let p := s.take (s.length - 17)
    if p ≠ [] ∧ ¬ 10 ∈ p then some p else none
  else none

/-- Python str.isdigit for ASCII content: nonempty and all digits. -/
def isdigitStr (s : Str) : Bool := !s.isEmpty && s.all isDigitCode

/-- Python str.title for ASCII text: a letter opening a cased run is
upper-cased, later letters of the run lower-cased, everything else kept. -/
def titleStr (s : Str) : Str :=
  (s.foldl (fun acc c =>
    if isUpperCode c || isLowerCode c then
      ((if acc.2 then toLowerCode c else toUpperCode c) :: acc.1, true)
    else (c :: acc.1, false)) (([] : Str), false)).1.reverse

/-- The _RENAME_MAP constant. -/
def rename_map : List (Str × Str) :=
  [(strCodes "SO. SAN FRANCISCO", strCodes "SOUTH SAN FRANCISCO"),
   (strCodes "MT VIEW", strCodes "MOUNTAIN VIEW")]

/-- Loader step 3, per row of stops.txt: rows with a non-numeric stop id are
skipped; otherwise the display name must match _STATIONS_RE (a failed match
leaves None, and None.group(1) raises AttributeError), group 1 is stripped and
upper-cased, renamed through _RENAME_MAP and title-cased, and the zone id
int-parsed (ValueError on failure).  The interim name/zone dict holds the same
two fields as Station and is modelled by it. -/
def stepStation (sts : List (Str × Station)) (r : StopRow) :
    Except LoadError (List (Str × Station)) :=
  if isdigitStr r.stop_id = false then Except.ok sts
  else
    match stationsReMatch r.stop_name with
    | none => Except.error LoadError.attributeError
    | some g1 =>
      let stop_name := upperStr (pyStrip g1)
      match pyInt r.zone_id with
      | some z =>
        Except.ok (dictInsert r.stop_id
          ⟨titleStr ((dictGet stop_name rename_map).getD stop_name), z⟩ sts)
      | none => Except.error LoadError.valueError

/-- TransitType(value): the four route classes of the enum; any other value is
a ValueError. -/
def parseTransitType (s : Str) : Option TransitType :=
  if s = strCodes "bu" then some TransitType.baby_bullet
  else if s = strCodes "li" then some TransitType.limited
  else if s = strCodes "lo" then some TransitType.local_route
  else if s = strCodes "tasj" then some TransitType.tamien_sanjose
  else none

/-- route_id.lower().split("-")[0].strip() of loader step 4. -/
def routeKind (route_id : Str) : Str :=
  pyStrip (((lowerStr route_id).splitOn 45).headD [])

/-- Loader step 4, per row of trips.txt: int-parse the direction flag, resolve
the route class (ValueError when unknown), map 0/1 onto the Direction enum
(ValueError otherwise), and join the service window (a dangling service id is
a KeyError, per the source evaluation order after the Direction call); the
stops dict starts empty. -/
def stepTrain (service_windows : List (Str × ServiceWindow))
    (trains : List (Str × Train)) (r : TripRow) :
    Except LoadError (List (Str × Train)) :=
  match pyInt r.direction_id with
  | none => Except.error LoadError.valueError
  | some train_dir =>
    match parseTransitType (routeKind r.route_id) with
    | none => Except.error LoadError.valueError
    | some tt =>
      match (if train_dir = 0 then some Direction.north
             else if train_dir = 1 then some Direction.south else none) with
      | none => Except.error LoadError.valueError
      | some dir =>
        match dictGet r.service_id service_windows with
        | none => Except.error (LoadError.keyError r.service_id)
        | some sw =>
          Except.ok (dictInsert r.trip_id ⟨r.trip_id, tt, dir, [], sw⟩ trains)

/-- Loader step 5, per row of stop_times.txt: look up the train (KeyError on a
dangling trip id), resolve both times (ValueError on malformed strings), then
evaluate the assignment: its right side int-parses the stop sequence, its
target subscript looks the station up (KeyError when the stop id was filtered
out in step 3), and the Stop is inserted into the stops dict of that train. -/
def stepStopTime (stations : List (Str × Station)) (trains : List (Str × Train))
    (r : StopTimeRow) : Except LoadError (List (Str × Train)) :=
  match dictGet r.trip_id trains with
  | none => Except.error (LoadError.keyError r.trip_id)
  | some train =>
    match resolve_time r.arrival_time, resolve_time r.departure_time with
    | some (arrival_day, arrival), some (departure_day, departure) =>
      match pyInt r.stop_sequence with
      | none => Except.error LoadError.valueError
      | some seq =>
        match dictGet r.stop_id stations with
        | none => Except.error (LoadError.keyError r.stop_id)
        | some st =>
          Except.ok (dictInsert r.trip_id
            { train with
                stops := dictInsert st
                  ⟨arrival, arrival_day, departure, departure_day, seq⟩ train.stops }
            trains)
    | _, _ => Except.error LoadError.valueError

/-- Display key of a station name: the alphanumeric words joined by
underscores, lower-cased. -/
def displayKey (name : Str) : Str :=
  lowerStr (List.intercalate (strCodes "_") (splitNotP isAlnumCode name))

/-- Loader step 6: rebuild self.stations keyed by display key. -/
def buildDisplayStations (sts : List (Str × Station)) : List (Str × Station) :=
  sts.foldl (fun m p => dictInsert (displayKey p.2.name) p.2 m) []

/-- Loader step 7: the unambiguous lookup index drops the underscores from the
display keys. -/
def buildUnambiguous (disp : List (Str × Station)) : List (Str × Station) :=
  disp.foldl (fun m p => dictInsert (p.1.filter (fun c => c != 95)) p.2 m) []

/-- Caltrain.load_from_gtfs: self.trains, self.stations, self._service_windows
and self._fares are cleared first, then each table drives its build step in
source order; a raise leaves self holding whatever had been written up to that
point, because the loops mutate self in place; the raised exception is
returned alongside.  self.version and self._unambiguous_stations are written
only at their points in the source, so a failure before those writes keeps the
previous values.  The id-to-Station conversion the source performs between
steps 4 and 5 is the identity in this representation. -/
def load_from_gtfs (feed : Feed) (s : CaltrainState) : CaltrainState × Option LoadError :=
  let s1 : CaltrainState :=
    { s with trains := [], stations := [], service_windows := [], fares := [] }
  match extractVersion feed.namelist with
  | Except.error e => (s1, some e)
  | Except.ok v =>
    let s2 := { s1 with version := some v }
    match buildFareLookup feed.fare_attributes with
    | Except.error e => (s2, some e)
    | Except.ok fare_lookup =>
      match runRows (stepFareRule fare_lookup) [] feed.fare_rules with
      | (fares, some e) => ({ s2 with fares := fares }, some e)
      | (fares, none) =>
        let s3 := { s2 with fares := fares }
        match buildServiceWindows feed.calendar with
        | (ws, some e) => ({ s3 with service_windows := ws }, some e)
        | (ws, none) =>
          let s4 := { s3 with service_windows := ws }
          match runRows stepStation [] feed.stops with
          | (sts, some e) => ({ s4 with stations := sts }, some e)
          | (sts, none) =>
            let s5 := { s4 with stations := sts }
            match runRows (stepTrain ws) [] feed.trips with
            | (trs, some e) => ({ s5 with trains := trs }, some e)
            | (trs, none) =>
              let s6 := { s5 with trains := trs }
              match runRows (stepStopTime sts) trs feed.stop_times with
              | (trs2, some e) => ({ s6 with trains := trs2 }, some e)
              | (trs2, none) =>
                let disp := buildDisplayStations sts
                ({ s6 with
                    trains := trs2
                    stations := disp
                    unambiguous_stations := buildUnambiguous disp }, none)

/-- The _ALIAS_MAP_RAW constant, with the single bare-string value written as
the one-element tuple the module loop wraps it into. -/
def alias_map_raw : List (Str × List Str) :=
  [(strCodes "SAN FRANCISCO", [strCodes "SF", strCodes "SAN FRAN"]),
   (strCodes "SOUTH SAN FRANCISCO",
     [strCodes "S SAN FRANCISCO", strCodes "SOUTH SF", strCodes "SOUTH SAN FRAN",
      strCodes "S SAN FRAN", strCodes "S SAN FRANCISCO", strCodes "S SF",
      strCodes "SO SF", strCodes "SO SAN FRANCISCO", strCodes "SO SAN FRAN"]),
   (strCodes "22ND ST",
     [strCodes "TWENTY-SECOND STREET", strCodes "TWENTY-SECOND ST",
      strCodes "22ND STREET", strCodes "22ND", strCodes "TWENTY-SECOND",
      strCodes "22"]),
   (strCodes "MOUNTAIN VIEW", [strCodes "MT VIEW"])]

/-- The _ALIAS_MAP built at module import: each alias, sanitized, maps to the
sanitized canonical name. -/
def alias_map : List (Str × Str) :=
  alias_map_raw.foldl (fun m p =>
    p.2.foldl (fun m2 x => dictInsert (sanitize_name x) (sanitize_name p.1) m2) m) []

/-- Caltrain.get_station: sanitize the query, resolve aliases (falling back to
the sanitized key itself), and look the result up in the unambiguous index; a
miss raises UnknownStationError carrying the original, unsanitized name.  A
found Station namedtuple is always truthy, so the if branch of the source is
exactly the some case. -/
def get_station (unambiguous_stations : List (Str × Station)) (name : Str) :
    Except Str Station :=
  let sanitized := sanitize_name name
  let sanitized2 := (dictGet sanitized alias_map).getD sanitized
  match dictGet sanitized2 unambiguous_stations with
  | some station => Except.ok station
  | none => Except.error name

/-- A Python datetime reference instant: a date (proleptic-Gregorian ordinal)
plus a time of day in seconds since midnight. -/
structure PyDateTime where
  date : Nat
  time : Nat
deriving DecidableEq, Repr

/-- datetime.weekday(): Monday is 0; ordinal 1 is a Monday. -/
def PyDateTime.weekday (t : PyDateTime) : Nat := (t.date + 6) % 7

/-- One insertion of the stable sort: the new element goes after every already
placed element whose departure key does not exceed its own, exactly where
list.sort keeps it. -/
def insertByDeparture (x : Trip) : List Trip → List Trip
  | [] => [x]
  | y :: ys =>
    if y.departure ≤ x.departure then y :: insertByDeparture x ys
    else x :: y :: ys

/-- possibilities.sort(key=lambda x: x.departure): Python sorts stably, a
stable sort has a unique output, and left-to-right stable insertion produces
it. -/
def sortByDeparture (l : List Trip) : List Trip :=
  l.foldl (fun acc x => insertByDeparture x acc) []

/-- Caltrain.next_trips once both stations are resolved: every train of the
index is rejected when the reference date falls outside its service window or
on an inactive weekday or when either station is unserved; a surviving train
is rejected when headed the wrong way (stop_number comparison) or already
departed (departure time of day strictly before the time of day of after);
each remaining train yields one Trip, and the list is sorted by departure. -/
def tripCandidate (a b : Station) (after : PyDateTime) (p : Str × Train) : Option Trip :=
  let train := p.2
  let sw := train.service_window
  if after.date < sw.start ∨ after.date > sw.end_ ∨ ¬ after.weekday ∈ sw.days then
    none
  else
    match dictGet a train.stops, dictGet b train.stops with
    | some stop_a, some stop_b =>
      if stop_a.stop_number > stop_b.stop_number then none
      else if stop_a.departure < after.time then none
      else some ⟨stop_a.departure, stop_b.arrival, resolve_duration stop_a stop_b, train⟩
    | _, _ => none

/-- The possibilities list of one next_trips call, sorted by departure. -/
def next_trips (a b : Station) (trains : List (Str × Train)) (after : PyDateTime) :
    List Trip :=
  sortByDeparture (trains.filterMap (tripCandidate a b after))

/-- Modelled from Python default-argument semantics for next_trips: the
default expression after=datetime.now() on the def line runs exactly once,
when the class body is executed, and the method object stores that single
datetime. -/
structure NextTripsMethod where
  default_after : PyDateTime
deriving DecidableEq, Repr

/-- Evaluation of the class body at wall-clock instant class_body_now: the
stored default is the clock reading of that one moment. -/
def defineNextTrips (class_body_now : PyDateTime) : NextTripsMethod :=
  ⟨class_body_now⟩

/-- A call of the method: when after is omitted the stored default is used;
the wall clock at call time is passed only to exhibit that the body never
reads it. -/
def callNextTrips (m : NextTripsMethod) (a b : Station) (trains : List (Str × Train))
    (after : Option PyDateTime) (_call_now : PyDateTime) : List Trip :=
  next_trips a b trains (after.getD m.default_after)

/-- datetime.strptime(s, "%H:%M:%S").time() of the historical loader
(src/caltrain/caltrain.py): one- or two-digit fields, hour at most 23, minute
and second at most 59 (the leap-second forms the %S pattern also accepts cannot
construct a datetime); anything else is a ValueError (none).  The result is
seconds since midnight. -/
def parseTimeHMS (s : Str) : Option Nat :=
  match s.splitOn 58 with
  | [hs, ms, ss] =>
    if (hs ≠ [] ∧ hs.length ≤ 2 ∧ hs.all isDigitCode ∧ natOfDigits hs ≤ 23) ∧
        (ms ≠ [] ∧ ms.length ≤ 2 ∧ ms.all isDigitCode ∧ natOfDigits ms ≤ 59) ∧
        (ss ≠ [] ∧ ss.length ≤ 2 ∧ ss.all isDigitCode ∧ natOfDigits ss ≤ 59) then
      some (natOfDigits hs * 3600 + natOfDigits ms * 60 + natOfDigits ss)
    else none
  | _ => none

/-- The Stop namedtuple of the historical variant: its arrival field holds a
one-element tuple (the source line ends in a stray comma), modelled as a
singleton list; the departure is a bare time of day. -/
structure OldStop where
  arrival_tuple : List Nat
  departure : Nat
deriving DecidableEq, Repr

/-- The Trip namedtuple of the historical variant; step 5 updates its stops
dict, the remaining fields ride along (the route class there is a plain
string). -/
structure OldTrip where
  id : Str
  type : Str
  direction : Direction
  stops : List (Station × OldStop)
  service_window : ServiceWindow
deriving DecidableEq, Repr

/-- Step 5 of the historical loader (src/caltrain/caltrain.py), per row of
stop_times.txt: a row whose stop id was recorded in ignored_stops while
parsing stops.txt is skipped outright; otherwise the trip is looked up
(KeyError on a dangling id), both times parsed (ValueError on failure), the
station looked up and the Stop stored, arrival as a one-tuple as in the
source. -/
def stepStopTimeOld (ignored_stops : List Str) (stations : List (Str × Station))
    (trips : List (Str × OldTrip)) (r : StopTimeRow) :
    Except LoadError (List (Str × OldTrip)) :=
  if r.stop_id ∈ ignored_stops then Except.ok trips
  else
    match dictGet r.trip_id trips with
    | none => Except.error (LoadError.keyError r.trip_id)
    | some trip =>
      match parseTimeHMS r.arrival_time, parseTimeHMS r.departure_time with
      | some arrival, some departure =>
        match dictGet r.stop_id stations with
        | none => Except.error (LoadError.keyError r.stop_id)
        | some st =>
          Except.ok (dictInsert r.trip_id
            { trip with stops := dictInsert st ⟨[arrival], departure⟩ trip.stops }
            trips)
      | _, _ => Except.error LoadError.valueError

/-- C5 (counterexample): a stop row with the numeric identifier 7310 and the
display name "Noise Stop", which does not match the station pattern, makes the
stop-table pass raise an AttributeError instead of being skipped: the loop
stops with an error rather than completing with the row ignored. -/
theorem stepStation_nomatch_raises :
    runRows stepStation []
      [StopRow.mk (strCodes "7310") (strCodes "Noise Stop") (strCodes "1")] =
      ([], some LoadError.attributeError) := by decide

/-- C5 (amended): during the stop-table pass a row with a non-numeric stop
identifier is skipped, while a row whose identifier is numeric but whose
display name does not match the "(.+) Caltrain( Station)?" pattern raises an
AttributeError and fails the load. -/
theorem stepStation_skip_and_fail (sts : List (Str × Station)) (r r2 : StopRow)
    (h1 : isdigitStr r.stop_id = false)
    (h2 : isdigitStr r2.stop_id = true)
    (h3 : stationsReMatch r2.stop_name = none) :
    stepStation sts r = Except.ok sts ∧
      stepStation sts r2 = Except.error LoadError.attributeError := by
  constructor
  · unfold stepStation
    rw [if_pos h1]
  · unfold stepStation
    rw [if_neg (by simp [h2]), h3]

/-- C5 (witness): the amended claim at concrete rows, via
stepStation_skip_and_fail. -/
theorem stepStation_skip_and_fail_witness :
    stepStation [] (StopRow.mk (strCodes "ctbu") (strCodes "Admin Entry") (strCodes "1")) =
        Except.ok [] ∧
      stepStation [] (StopRow.mk (strCodes "7310") (strCodes "Noise Stop") (strCodes "1")) =
        Except.error LoadError.attributeError :=
  stepStation_skip_and_fail [] _ _ (by decide) (by decide) (by decide)

/-- A concrete train for the stop-times counterexamples and witnesses. -/
def trainT1 : Train :=
  ⟨strCodes "t1", TransitType.local_route, Direction.north, [], ⟨100, 200, [1]⟩⟩

/-- C6 (counterexample): in the current loader a stop-times row whose stop id
88 was filtered out of the station table is not skipped: the pass raises
KeyError("88") and the load fails on that row. -/
theorem stepStopTime_filtered_station_raises :
    runRows (stepStopTime []) [(strCodes "t1", trainT1)]
      [StopTimeRow.mk (strCodes "t1") (strCodes "08:00:00") (strCodes "08:05:00")
        (strCodes "88") (strCodes "1")] =
      ([(strCodes "t1", trainT1)], some (LoadError.keyError (strCodes "88"))) := by
  decide

/-- C6 (amended): in the historical loader a stop-times row whose stop id was
recorded as ignored during stop parsing is skipped and processing continues;
in the current loader a row whose stop id is absent from the parsed stations
raises KeyError on that id and the load fails. -/
theorem stop_times_filtered_row_handling (ignored : List Str)
    (stations : List (Str × Station)) (trips : List (Str × OldTrip))
    (trains : List (Str × Train)) (r r2 : StopTimeRow) (tr : Train)
    (ad dd : Int) (at2 dt : Nat) (n : Int)
    (h1 : r.stop_id ∈ ignored)
    (h2 : dictGet r2.trip_id trains = some tr)
    (h3 : resolve_time r2.arrival_time = some (ad, at2))
    (h4 : resolve_time r2.departure_time = some (dd, dt))
    (h5 : pyInt r2.stop_sequence = some n)
    (h6 : dictGet r2.stop_id stations = none) :
    stepStopTimeOld ignored stations trips r = Except.ok trips ∧
      stepStopTime stations trains r2 = Except.error (LoadError.keyError r2.stop_id) := by
  constructor
  · unfold stepStopTimeOld
    rw [if_pos h1]
  · unfold stepStopTime
    rw [h2, h3, h4, h5, h6]

/-- C6 (witness): the amended claim at concrete rows, via
stop_times_filtered_row_handling. -/
theorem stop_times_filtered_row_handling_witness :
    stepStopTimeOld [strCodes "99"] [] []
        (StopTimeRow.mk (strCodes "t1") (strCodes "08:00:00") (strCodes "08:05:00")
          (strCodes "99") (strCodes "1")) = Except.ok [] ∧
      stepStopTime [] [(strCodes "t1", trainT1)]
        (StopTimeRow.mk (strCodes "t1") (strCodes "08:00:00") (strCodes "08:05:00")
          (strCodes "88") (strCodes "1")) =
        Except.error (LoadError.keyError (strCodes "88")) :=
  stop_times_filtered_row_handling [strCodes "99"] [] [] [(strCodes "t1", trainT1)]
    _ _ trainT1 0 0 28800 29100 1 (by decide) (by decide) (by decide) (by decide)
    (by decide) (by decide)

/-- A loaded-looking prior state used to observe what a second load does to
it. -/
def priorState : CaltrainState :=
  { version := some (strCodes "v0")
    trains := [(strCodes "t0", trainT1)]
    stations := [(strCodes "x", ⟨strCodes "X", 1⟩)]
    unambiguous_stations := [(strCodes "x", ⟨strCodes "X", 1⟩)]
    service_windows := [(strCodes "w0", ⟨100, 200, [1]⟩)]
    fares := [((1, 1), [3, 75])] }

/-- An archive with two top-level directories: load raises
UnexpectedGTFSLayoutError. -/
def feedTwoRoots : Feed :=
  { namelist := [strCodes "a/stops.txt", strCodes "b/stops.txt"]
    fare_attributes := []
    fare_rules := []
    calendar := []
    stops := []
    trips := []
    stop_times := [] }

/-- C1 (counterexample): a load that fails with the layout-ambiguity error
does not leave the queryable state as it was before the call: the trains,
stations, service-window and fare collections were already cleared when the
error was raised, so the state after the failed call differs from the prior
state. -/
theorem load_failure_clears_state :
    (load_from_gtfs feedTwoRoots priorState).2 = some LoadError.unexpectedGTFSLayout ∧
      (load_from_gtfs feedTwoRoots priorState).1 ≠ priorState := by decide

/-- C1 (amended): a load that succeeds determines the entire resulting state
from the feed alone: loading one feed from any two prior states produces equal
states, so a repeated successful load replaces all prior state. -/
theorem load_from_gtfs_success_replaces (feed : Feed) (s t s2 t2 : CaltrainState)
    (hs : load_from_gtfs feed s = (s2, none))
    (ht : load_from_gtfs feed t = (t2, none)) : s2 = t2 := by
  unfold load_from_gtfs at hs ht
  rcases hv : extractVersion feed.namelist with e | v <;> rw [hv] at hs ht <;>
    simp at hs ht
  rcases hf : buildFareLookup feed.fare_attributes with e | fl <;> rw [hf] at hs ht <;>
    simp at hs ht
  rcases h1 : runRows (stepFareRule fl) [] feed.fare_rules with ⟨fares, _ | e1⟩ <;>
    rw [h1] at hs ht <;> simp at hs ht
  rcases h2 : buildServiceWindows feed.calendar with ⟨ws, _ | e2⟩ <;>
    rw [h2] at hs ht <;> simp at hs ht
  rcases h3 : runRows stepStation [] feed.stops with ⟨sts, _ | e3⟩ <;>
    rw [h3] at hs ht <;> simp at hs ht
  rcases h4 : runRows (stepTrain ws) [] feed.trips with ⟨trs, _ | e4⟩ <;>
    rw [h4] at hs ht <;> simp at hs ht
  rcases h5 : runRows (stepStopTime sts) trs feed.stop_times with ⟨trs2, _ | e5⟩ <;>
    rw [h5] at hs ht <;> simp at hs ht
  rw [← hs, ← ht]

/-- An archive that loads successfully with every table empty (the calendar
holds only its header row). -/
def feedHeaderOnly : Feed :=
  { namelist := [strCodes "v1/calendar.txt"]
    fare_attributes := []
    fare_rules := []
    calendar := [[strCodes "service_id"]]
    stops := []
    trips := []
    stop_times := [] }

/-- The state a successful load of feedHeaderOnly produces. -/
def loadedHeaderOnly : CaltrainState :=
  { version := some (strCodes "v1")
    trains := []
    stations := []
    unambiguous_stations := []
    service_windows := []
    fares := [] }

/-- C1 (witness): loading feedHeaderOnly from the populated prior state and
from a blank state both give loadedHeaderOnly, via
load_from_gtfs_success_replaces. -/
theorem load_from_gtfs_success_replaces_witness : loadedHeaderOnly = loadedHeaderOnly :=
  load_from_gtfs_success_replaces feedHeaderOnly priorState
    (CaltrainState.mk none [] [] [] [] []) loadedHeaderOnly loadedHeaderOnly
    (by decide) (by decide)

/-- C9: get_station returns the indexed Station whenever sanitization followed
by alias resolution hits the unambiguous index, and otherwise raises
UnknownStationError carrying exactly the original input string. -/
theorem get_station_spec (idx : List (Str × Station)) (name : Str) :
    (∀ st, dictGet ((dictGet (sanitize_name name) alias_map).getD (sanitize_name name)) idx
        = some st → get_station idx name = Except.ok st) ∧
      (dictGet ((dictGet (sanitize_name name) alias_map).getD (sanitize_name name)) idx
        = none → get_station idx name = Except.error name) := by
  constructor
  · intro st h
    simp only [get_station]
    rw [h]
  · intro h
    simp only [get_station]
    rw [h]

/-- C9 (witness): both branches of get_station_spec at concrete inputs: a
query that resolves through sanitization and the alias table, and one that
misses and carries back its exact input. -/
theorem get_station_spec_witness :
    get_station [(strCodes "sanfrancisco", Station.mk (strCodes "San Francisco") 1)]
        (strCodes "S.F. Station") =
      Except.ok (Station.mk (strCodes "San Francisco") 1) ∧
    get_station [(strCodes "sanfrancisco", Station.mk (strCodes "San Francisco") 1)]
        (strCodes "nonexistent place") =
      Except.error (strCodes "nonexistent place") :=
  ⟨(get_station_spec _ _).1 _ (by decide), (get_station_spec _ _).2 (by decide)⟩

/-- Membership through one stable insertion. -/
theorem mem_insertByDeparture (x y : Trip) (l : List Trip) :
    y ∈ insertByDeparture x l ↔ y = x ∨ y ∈ l := by
  induction l with
  | nil => simp [insertByDeparture]
  | cons z zs ih =>
    unfold insertByDeparture
    split
    · simp only [List.mem_cons, ih]
      tauto
    · simp only [List.mem_cons]

/-- Membership through the stable sort fold. -/
theorem mem_sortByDeparture_aux (l acc : List Trip) (y : Trip) :
    y ∈ l.foldl (fun a x => insertByDeparture x a) acc ↔ y ∈ acc ∨ y ∈ l := by
  induction l generalizing acc with
  | nil => simp
  | cons z zs ih =>
    rw [List.foldl_cons, ih]
    rw [mem_insertByDeparture]
    simp only [List.mem_cons]
    tauto

/-- The stable sort neither adds nor drops trips. -/
theorem mem_sortByDeparture (l : List Trip) (y : Trip) :
    y ∈ sortByDeparture l ↔ y ∈ l := by
  unfold sortByDeparture
  rw [mem_sortByDeparture_aux]
  simp

/-- C7: every trip returned by next_trips departs, by time of day, at or after
the queried reference instant: a trip that has already left is never
returned. -/
theorem next_trips_not_departed (a b : Station) (trains : List (Str × Train))
    (after : PyDateTime) (t : Trip) (ht : t ∈ next_trips a b trains after) :
    after.time ≤ t.departure := by
  unfold next_trips at ht
  rw [mem_sortByDeparture] at ht
  rcases List.mem_filterMap.mp ht with ⟨p, _, hp⟩
  simp only [tripCandidate] at hp
  split at hp
  · simp at hp
  · split at hp
    · split at hp
      · simp at hp
      · split at hp
        · simp at hp
        · rename_i hdep
          injection hp with hx
          subst hx
          exact le_of_not_lt hdep
    · simp at hp

/-- C7 (witness): stations, train and reference instant. -/
def stA : Station := ⟨strCodes "A", 1⟩

/-- Destination station of the C7 witness. -/
def stB : Station := ⟨strCodes "B", 2⟩

/-- A train serving stA then stB inside its window. -/
def trainAB : Train :=
  ⟨strCodes "190", TransitType.local_route, Direction.north,
    [(stA, ⟨28800, 0, 28800, 0, 1⟩), (stB, ⟨30000, 0, 30060, 0, 2⟩)], ⟨100, 200, [1]⟩⟩

/-- The Trip next_trips emits for trainAB. -/
def tripAB : Trip := ⟨28800, 30000, 1200, trainAB⟩

/-- C7 (witness): the returned trip of a concrete query departs no earlier
than the queried instant, via next_trips_not_departed. -/
theorem next_trips_not_departed_witness :
    (PyDateTime.mk 100 28000).time ≤ tripAB.departure :=
  next_trips_not_departed stA stB [(strCodes "190", trainAB)]
    (PyDateTime.mk 100 28000) tripAB (by decide)

/-- Stable insertion preserves sortedness by departure. -/
theorem sorted_insertByDeparture (x : Trip) (l : List Trip)
    (h : List.Sorted (fun u v : Trip => u.departure ≤ v.departure) l) :
    List.Sorted (fun u v : Trip => u.departure ≤ v.departure) (insertByDeparture x l) := by
  induction l with
  | nil => simp [insertByDeparture]
  | cons y ys ih =>
    rw [List.sorted_cons] at h
    unfold insertByDeparture
    split
    · rename_i hle
      rw [List.sorted_cons]
      refine ⟨?_, ih h.2⟩
      intro z hz
      rcases (mem_insertByDeparture x z ys).mp hz with rfl | hz2
      · exact hle
      · exact h.1 z hz2
    · rename_i hle
      rw [List.sorted_cons]
      refine ⟨?_, ?_⟩
      · intro z hz
        rcases List.mem_cons.mp hz with rfl | hz2
        · exact le_of_not_le hle
        · exact le_trans (le_of_not_le hle) (h.1 z hz2)
      · rw [List.sorted_cons]
        exact h

/-- The stable sort fold yields a sorted list from a sorted accumulator. -/
theorem sorted_sortByDeparture_aux (l : List Trip) (acc : List Trip)
    (hacc : List.Sorted (fun u v : Trip => u.departure ≤ v.departure) acc) :
    List.Sorted (fun u v : Trip => u.departure ≤ v.departure)
      (l.foldl (fun a x => insertByDeparture x a) acc) := by
  induction l generalizing acc with
  | nil => simpa
  | cons z zs ih =>
    rw [List.foldl_cons]
    exact ih _ (sorted_insertByDeparture z acc hacc)

/-- One stable insertion grows the length by one. -/
theorem length_insertByDeparture (x : Trip) (l : List Trip) :
    (insertByDeparture x l).length = l.length + 1 := by
  induction l with
  | nil => rfl
  | cons y ys ih =>
    unfold insertByDeparture
    split <;> simp [ih]

/-- The stable sort fold adds exactly the fed elements. -/
theorem length_sortByDeparture_aux (l acc : List Trip) :
    (l.foldl (fun a x => insertByDeparture x a) acc).length = acc.length + l.length := by
  induction l generalizing acc with
  | nil => simp
  | cons z zs ih =>
    rw [List.foldl_cons, ih, length_insertByDeparture]
    simp only [List.length_cons]
    omega

/-- The stable sort preserves length. -/
theorem length_sortByDeparture (l : List Trip) :
    (sortByDeparture l).length = l.length := by
  unfold sortByDeparture
  rw [length_sortByDeparture_aux]
  simp

/-- C8: the next_trips result is sorted non-decreasing by departure time of
day; its length equals the number of qualifying trains, so the sort drops
nothing and no result-count limit exists; and the result may be empty, as on
an empty train index. -/
theorem next_trips_sorted_unbounded (a b : Station) (trains : List (Str × Train))
    (after : PyDateTime) :
    List.Sorted (fun u v : Trip => u.departure ≤ v.departure) (next_trips a b trains after) ∧
      (next_trips a b trains after).length =
        (trains.filterMap (tripCandidate a b after)).length ∧
      next_trips a b [] after = [] := by
  refine ⟨?_, ?_, rfl⟩
  · unfold next_trips
    exact sorted_sortByDeparture_aux _ [] (by simp)
  · unfold next_trips
    exact length_sortByDeparture _

/-- C10: the default reference instant of next_trips is captured once, when
the class body is evaluated: the method stores exactly the class-body-time
clock reading, and two calls that omit after, made at different wall-clock
instants against the same index, use that identical stored instant and return
equal sequences. -/
theorem next_trips_default_frozen (class_body_now now1 now2 : PyDateTime)
    (a b : Station) (trains : List (Str × Train)) :
    (defineNextTrips class_body_now).default_after = class_body_now ∧
      callNextTrips (defineNextTrips class_body_now) a b trains none now1 =
        callNextTrips (defineNextTrips class_body_now) a b trains none now2 :=
  ⟨rfl, rfl⟩
